import Mathlib

/-!
Verification development for the Capstone agent repository.

The plan execution engine (`src/agent.py`, `Agent.execute_plan`), the
delegated-task executor (`src/sub_agent.py`, `SubAgent.execute_task`) and the
tool-connector listing operation (`src/mcp_client.py`, `MCPClient.list_tools`)
are embedded shallowly below.  Python's dynamic dictionaries are modelled by
the inductive `Value` type; a step (and each produced step-result record) is an
association list of string keys to values.  External collaborators (the live
connector processes and the remote language model) enter as deterministic
behaviour functions: a connector's `call_tool` is a function returning either a
value or the message of the exception it raised, the delegate executor's
underlying chat call is an `Except` of the response content or the raised
exception's message, and the connector's `_send_request` used by `list_tools`
is an oracle indexed by how many fetches were made so far.
-/

/-- A Python value, as far as the embedded code inspects one:
strings, integers, booleans, `None`, lists and string-keyed dictionaries. -/
inductive Value where
  | str : String → Value
  | num : Int → Value
  | bool : Bool → Value
  | none : Value
  | list : List Value → Value
  | dict : List (String × Value) → Value

/-- A Python dictionary with string keys, as an association list
(key lookup takes the first matching entry). -/
abbrev Dict := List (String × Value)

/-- Lookup `d.get(k)` returning `Option`: the stored value, if the key is present. -/
def dget (d : Dict) (k : String) : Option Value :=
  (d.find? (fun p => p.1 == k)).map Prod.snd

/-- Python `d.get(k)`: the stored value, or `None` when the key is absent. -/
def pyGet (d : Dict) (k : String) : Value :=
  (dget d k).getD Value.none

/-- Python `d.get(k, default)`. -/
def pyGetD (d : Dict) (k : String) (dflt : Value) : Value :=
  (dget d k).getD dflt

/-- Python truthiness, as used by `if self.tools_cache:`. -/
def pyTruthy : Value → Bool
  | .str s => !s.isEmpty
  | .num n => n != 0
  | .bool b => b
  | .none => false
  | .list xs => !xs.isEmpty
  | .dict d => !d.isEmpty

/-- Python `v == s` for a string literal `s`: true exactly when `v` is that
string (no non-string value compares equal to a string). -/
def valueEqStr (v : Value) (s : String) : Bool :=
  match v with
  | .str t => t == s
  | _ => false

mutual
/-- Python `repr` of a value, used by `str()` on non-string values inside
f-strings.  String quoting is rendered with plain single quotes (Python's
additional escaping of quote characters inside the string is not modelled;
no embedded code path renders containers into a message). -/
def pyRepr : Value → String
  | .str s => "\x27" ++ s ++ "\x27"
  | .num n => toString n
  | .bool b => if b then "True" else "False"
  | .none => "None"
  | .list xs => "[" ++ pyReprSeq xs ++ "]"
  | .dict d => "\x7b" ++ pyReprPairs d ++ "\x7d"

/-- Comma-separated `repr`s of the elements of a list. -/
def pyReprSeq : List Value → String
  | [] => ""
  | [x] => pyRepr x
  | x :: y :: xs => pyRepr x ++ ", " ++ pyReprSeq (y :: xs)

/-- Comma-separated `repr`s of the entries of a dictionary. -/
def pyReprPairs : List (String × Value) → String
  | [] => ""
  | [(k, v)] => "\x27" ++ k ++ "\x27: " ++ pyRepr v
  | (k, v) :: e :: xs => "\x27" ++ k ++ "\x27: " ++ pyRepr v ++ ", " ++ pyReprPairs (e :: xs)
end

/-- Python `str(v)`, as interpolated by an f-string: a string renders as
itself, everything else by its `repr`. -/
def pyStr : Value → String
  | .str s => s
  | .num n => toString n
  | .bool b => if b then "True" else "False"
  | .none => "None"
  | .list xs => "[" ++ pyReprSeq xs ++ "]"
  | .dict d => "\x7b" ++ pyReprPairs d ++ "\x7d"

/-- The deterministic behaviour of one connected Tool Connector's `call_tool`
operation: given `(action, parameters)` it either returns a value or raises an
exception whose `str()` is the carried message (`MCPClient.call_tool` wraps
every failure in a raised `RuntimeError`, which `execute_plan` catches). -/
abbrev Connector := Value → Value → Except String Value

/-- The collaborators handed to the plan execution engine: the agent's
`self.mcp_clients` mapping (name to connector behaviour) and the behaviour of
a freshly constructed `SubAgent`'s `execute_task` (the factory is
deterministic, so every fresh instance behaves as this one function; it never
raises, per `sub_agent.py`). -/
structure ExecEnv where
  connectors : List (String × Connector)
  subExec : Value → Value

/-- Python `mcp_server in self.mcp_clients` followed by
`self.mcp_clients[mcp_server]`: a lookup that only succeeds on a string key
present in the mapping (the mapping's keys are the strings passed to
`connect_mcp`). -/
def findConnector (env : ExecEnv) (v : Value) : Option Connector :=
  match v with
  | .str s => (env.connectors.find? (fun p => p.1 == s)).map Prod.snd
  | _ => Option.none

/-- The success record appended by `execute_plan`:
`{"step": i, "action": action, "status": "success", "result": result}`. -/
def successEntry (i : Nat) (action : Value) (result : Value) : Dict :=
  [("step", Value.num i), ("action", action),
   ("status", Value.str "success"), ("result", result)]

/-- The error record appended by `execute_plan`'s per-step `except` handler:
`{"step": i, "action": action, "status": "error", "error": str(e)}`. -/
def errorEntry (i : Nat) (action : Value) (e : String) : Dict :=
  [("step", Value.num i), ("action", action),
   ("status", Value.str "error"), ("error", Value.str e)]

/-- The body of `execute_plan`'s loop for one step (agent.py lines 77-137):
reads `type`, `action`, `parameters` with their defaults, dispatches on the
`type` value, and produces the appended record together with the number of
`SubAgent` instances appended to `self.sub_agents` (1 on the `sub_agent`
branch, else 0).  Exceptions raised inside the `try` block (the connector call
raising, the `ValueError` for a missing connector, the `ValueError` for an
unknown action type) are caught by the per-step handler and become an
`errorEntry` carrying `str(e)`. -/
def execStep (env : ExecEnv) (i : Nat) (step : Dict) : Dict × Nat :=
  let action_type := pyGetD step "type" (Value.str "")
  let action := pyGetD step "action" (Value.str "")
  let parameters := pyGetD step "parameters" (Value.dict [])
  if valueEqStr action_type "mcp_tool" then
    let mcp_server := pyGet step "mcp_server"
    match findConnector env mcp_server with
    | some conn =>
      match conn action parameters with
      | .ok result => (successEntry i action result, 0)
      | .error e => (errorEntry i action e, 0)
    | Option.none =>
      (errorEntry i action
        ("MCP server \x27" ++ pyStr mcp_server ++ "\x27 not connected"), 0)
  else if valueEqStr action_type "sub_agent" then
    let sub_result := env.subExec (pyGetD step "task_description" (Value.str ""))
    (successEntry i action sub_result, 1)
  else if valueEqStr action_type "direct" then
    (successEntry i action (Value.str ("Direct action: " ++ pyStr action)), 0)
  else
    (errorEntry i action ("Unknown action type: " ++ pyStr action_type), 0)

/-- The loop of `execute_plan` over `enumerate(plan_steps, 1)`: the ordered
list of appended records and the total number of `SubAgent` instances
appended, starting at 1-based index `i`. -/
def execSteps (env : ExecEnv) : Nat → List Dict → List Dict × Nat
  | _, [] => ([], 0)
  | i, step :: rest =>
    ((execStep env i step).1 :: (execSteps env (i + 1) rest).1,
     (execStep env i step).2 + (execSteps env (i + 1) rest).2)

/-- A plan as consumed by `execute_plan`: `plan.get("steps", [])` yields
`steps` (a plan dictionary without the key corresponds to `steps = []`); all
claims under verification concern plans whose steps are mappings, so each step
is a `Dict`.  The remaining plan payload (`goal`, ...) is carried opaquely and
echoed back in the report. -/
structure Plan where
  goal : Value
  steps : List Dict

/-- The dictionary returned by `execute_plan`:
`{"plan": plan, "results": results, "success": all(...)}`. -/
structure Report where
  plan : Plan
  results : List Dict
  success : Bool

/-- Embedding of `Agent.execute_plan` (agent.py lines 62-143).  `sub_agents` is the length
of the agent's `self.sub_agents` list before the call (instance identity
abstracted to a count); the returned `Nat` is its length afterwards.  The
`success` flag is `all(r.get("status") == "success" for r in results)`. -/
def execute_plan (env : ExecEnv) (plan : Plan) (sub_agents : Nat) :
    Report × Nat :=
  let rk := execSteps env 1 plan.steps
  ({ plan := plan, results := rk.1,
     success := rk.1.all (fun r => valueEqStr (pyGet r "status") "success") },
   sub_agents + rk.2)

/-- Embedding of `SubAgent.execute_task` (sub_agent.py lines 24-66).  `llm` is the outcome
of the remote `chat.completions.create` call: `.ok v` the returned message
content (a string or `None`), `.error e` a raised exception with `str(e) = e`.
The method itself never raises: a failure is returned as a dictionary with
`status = "error"` and the fault's message under `"error"`. -/
def SubAgent.execute_task (llm : Except String Value) (task_description : Value) :
    Value :=
  match llm with
  | .ok result_text =>
    Value.dict [("task", task_description), ("result", result_text),
                ("status", Value.str "completed")]
  | .error e =>
    Value.dict [("task", task_description), ("result", Value.none),
                ("status", Value.str "error"), ("error", Value.str e)]

/-- Outcome of one `_send_request({"method": "tools/list", ...})` call as seen
by `list_tools`: either the request raised (message `msg`) or it returned a
parsed JSON value `r`. -/
inductive FetchOutcome where
  | raise : String → FetchOutcome
  | resp : Value → FetchOutcome

/-- The `MCPClient` state that `list_tools` reads and writes: the
`self.tools_cache` value (initially the empty list) and the number of
tool-listing fetches performed so far (so that "re-fetching" is observable). -/
structure MCPClientState where
  tools_cache : Value
  fetches : Nat

/-- Embedding of `MCPClient.list_tools` (mcp_client.py lines 78-104), against a
deterministic server `server` mapping the fetch number to its outcome.
If `self.tools_cache` is truthy it is returned without a fetch.  Otherwise one
fetch happens; a raised request is caught and yields `[]`; a response that is
a dictionary whose `"result"` entry is a dictionary containing `"tools"`
caches and returns that tools value; every other response shape yields `[]`
uncached (for a non-dictionary `response` or `response["result"]`, the `in`
test is either false — falling to the `else: return []` branch — or true
followed by a `TypeError` on subscripting, which the `except` catches and
turns into `[]`). -/
def MCPClient.list_tools (server : Nat → FetchOutcome) (st : MCPClientState) :
    Value × MCPClientState :=
  if pyTruthy st.tools_cache then (st.tools_cache, st)
  else
    match server st.fetches with
    | .raise _ => (Value.list [], ⟨st.tools_cache, st.fetches + 1⟩)
    | .resp r =>
      match r with
      | .dict d =>
        match dget d "result" with
        | some (.dict res) =>
          match dget res "tools" with
          | some ts => (ts, ⟨ts, st.fetches + 1⟩)
          | Option.none => (Value.list [], ⟨st.tools_cache, st.fetches + 1⟩)
        | _ => (Value.list [], ⟨st.tools_cache, st.fetches + 1⟩)
      | _ => (Value.list [], ⟨st.tools_cache, st.fetches + 1⟩)

/-- A value comparing equal to a string literal is that string. -/
theorem valueEqStr_eq_true {v : Value} {s : String} (h : valueEqStr v s = true) :
    v = Value.str s := by
  cases v <;> simp [valueEqStr] at h
  simp [h]

/-- The loop produces exactly one record per step. -/
theorem execSteps_fst_length (env : ExecEnv) :
    ∀ (j : Nat) (steps : List Dict),
      (execSteps env j steps).1.length = steps.length
  | _, [] => rfl
  | j, _ :: rest => by
    simp [execSteps, execSteps_fst_length env (j + 1) rest]

/-- The record at position `i` of the loop started at index `j` is the record
produced for step `i` at 1-based index `j + i`. -/
theorem execSteps_fst_get? (env : ExecEnv) :
    ∀ (j i : Nat) (steps : List Dict),
      (execSteps env j steps).1.get? i
        = (steps.get? i).map (fun s => (execStep env (j + i) s).1)
  | _, _, [] => by simp [execSteps]
  | j, 0, s :: rest => by simp [execSteps]
  | j, i + 1, s :: rest => by
    have ih := execSteps_fst_get? env (j + 1) i rest
    simp only [execSteps, List.get?_cons_succ, ih]
    rw [show j + 1 + i = j + (i + 1) from by omega]

/-- The record at position `i` of the report's results is the record produced
for step `i` of the plan at 1-based index `i + 1`. -/
theorem execute_plan_results_get? (env : ExecEnv) (p : Plan) (n i : Nat) :
    (execute_plan env p n).1.results.get? i
      = (p.steps.get? i).map (fun s => (execStep env (i + 1) s).1) := by
  show (execSteps env 1 p.steps).1.get? i = _
  rw [execSteps_fst_get? env 1 i p.steps, Nat.add_comm 1 i]

/-- Every record produced for a step is either the success record or the error
record for that step's 1-based index and `action` value. -/
theorem execStep_shape (env : ExecEnv) (i : Nat) (s : Dict) :
    (∃ r, (execStep env i s).1 = successEntry i (pyGetD s "action" (Value.str "")) r)
    ∨ (∃ e, (execStep env i s).1 = errorEntry i (pyGetD s "action" (Value.str "")) e) := by
  simp only [execStep]
  repeat' split
  all_goals first
    | exact Or.inl ⟨_, rfl⟩
    | exact Or.inr ⟨_, rfl⟩

/-- Every produced record carries its step's 1-based index under `"step"`. -/
theorem execStep_step_field (env : ExecEnv) (i : Nat) (s : Dict) :
    dget (execStep env i s).1 "step" = some (Value.num i) := by
  rcases execStep_shape env i s with ⟨r, h⟩ | ⟨e, h⟩ <;> rw [h] <;> rfl

/-- The `mcp_tool` branch, connector present, call raises: the per-step handler
turns the fault into the error record carrying `str(e)`. -/
theorem execStep_mcp_raise (env : ExecEnv) (i : Nat) (s : Dict)
    (conn : Connector) (e : String)
    (ht : valueEqStr (pyGetD s "type" (Value.str "")) "mcp_tool" = true)
    (hc : findConnector env (pyGet s "mcp_server") = some conn)
    (he : conn (pyGetD s "action" (Value.str ""))
            (pyGetD s "parameters" (Value.dict [])) = Except.error e) :
    execStep env i s = (errorEntry i (pyGetD s "action" (Value.str "")) e, 0) := by
  simp [execStep, ht, hc, he]

/-- The `mcp_tool` branch, connector name absent from the mapping: the raised
`ValueError` is caught and becomes the "not connected" error record. -/
theorem execStep_mcp_missing (env : ExecEnv) (i : Nat) (s : Dict) (name : String)
    (ht : valueEqStr (pyGetD s "type" (Value.str "")) "mcp_tool" = true)
    (hs : pyGet s "mcp_server" = Value.str name)
    (hn : env.connectors.find? (fun p => p.1 == name) = Option.none) :
    execStep env i s
      = (errorEntry i (pyGetD s "action" (Value.str ""))
           ("MCP server \x27" ++ name ++ "\x27 not connected"), 0) := by
  simp [execStep, ht, hs, findConnector, hn, pyStr]

/-- The `sub_agent` branch: the delegate's returned structure, whatever its own
status, is wrapped unconditionally in a success record, and one fresh
`SubAgent` instance is retained. -/
theorem execStep_sub_agent (env : ExecEnv) (i : Nat) (s : Dict)
    (ht : valueEqStr (pyGetD s "type" (Value.str "")) "sub_agent" = true) :
    execStep env i s
      = (successEntry i (pyGetD s "action" (Value.str ""))
           (env.subExec (pyGetD s "task_description" (Value.str ""))), 1) := by
  have h := valueEqStr_eq_true ht
  simp [execStep, h, valueEqStr]

/-- The `direct` branch: always the success record with the synthesized
description string. -/
theorem execStep_direct (env : ExecEnv) (i : Nat) (s : Dict)
    (ht : valueEqStr (pyGetD s "type" (Value.str "")) "direct" = true) :
    execStep env i s
      = (successEntry i (pyGetD s "action" (Value.str ""))
           (Value.str ("Direct action: "
              ++ pyStr (pyGetD s "action" (Value.str "")))), 0) := by
  have h := valueEqStr_eq_true ht
  simp [execStep, h, valueEqStr]

/-- Fall-through branch: a `type` equal to none of the three recognized
strings raises `ValueError("Unknown action type: ...")`, caught into the
error record naming the offending value. -/
theorem execStep_unknown (env : ExecEnv) (i : Nat) (s : Dict)
    (h1 : valueEqStr (pyGetD s "type" (Value.str "")) "mcp_tool" = false)
    (h2 : valueEqStr (pyGetD s "type" (Value.str "")) "sub_agent" = false)
    (h3 : valueEqStr (pyGetD s "type" (Value.str "")) "direct" = false) :
    execStep env i s
      = (errorEntry i (pyGetD s "action" (Value.str ""))
           ("Unknown action type: "
              ++ pyStr (pyGetD s "type" (Value.str ""))), 0) := by
  simp [execStep, h1, h2, h3]

/-- Once the cache value is truthy, a call returns it and leaves the client
state (cache and fetch count) untouched. -/
theorem list_tools_cached (srv : Nat → FetchOutcome) (st : MCPClientState)
    (h : pyTruthy st.tools_cache = true) :
    MCPClient.list_tools srv st = (st.tools_cache, st) := by
  simp [MCPClient.list_tools, h]

/-- A connector behaviour that always raises with message "boom". -/
def connBoom : Connector := fun _ _ => Except.error "boom"

/-- A deterministic delegate-executor behaviour whose underlying chat call
always raises, so every delegated task returns a structure with
`status = "error"`. -/
def subExecW : Value → Value :=
  fun td => SubAgent.execute_task (Except.error "API failure") td

/-- A concrete collaborator environment: one connector named "srv" whose call
operation raises, and the failing delegate behaviour. -/
def envW : ExecEnv := ⟨[("srv", connBoom)], subExecW⟩

/-- A direct step with an action label. -/
def stepDirectW : Dict := [("type", Value.str "direct"), ("action", Value.str "a1")]

/-- A tool step naming a connector absent from the mapping. -/
def stepToolMissingW : Dict :=
  [("type", Value.str "mcp_tool"), ("action", Value.str "a2"),
   ("mcp_server", Value.str "x"), ("parameters", Value.dict [])]

/-- A tool step naming the connected connector whose call raises. -/
def stepToolFailW : Dict :=
  [("type", Value.str "mcp_tool"), ("action", Value.str "a3"),
   ("mcp_server", Value.str "srv"), ("parameters", Value.dict [])]

/-- A delegate step. -/
def stepSubW : Dict :=
  [("type", Value.str "sub_agent"), ("action", Value.str "d"),
   ("task_description", Value.str "t")]

/-- A step with an unrecognized type value. -/
def stepUnknownW : Dict := [("type", Value.str "bogus"), ("action", Value.str "u")]

/-- A step whose mapping lacks the type key entirely. -/
def stepNoTypeW : Dict := [("action", Value.str "n")]

/-- A direct step whose mapping lacks the action key. -/
def stepDirectNoActW : Dict := [("type", Value.str "direct")]

/-- A concrete seven-step plan exercising every dispatch branch. -/
def planW : Plan :=
  ⟨Value.str "g",
   [stepDirectW, stepToolMissingW, stepToolFailW, stepSubW, stepUnknownW,
    stepNoTypeW, stepDirectNoActW]⟩

/-- A concrete plan with zero steps. -/
def planEmptyW : Plan := ⟨Value.str "g", []⟩

/-- C1, counterexample.  In `envW` the delegate executor deterministically
reports `status = "error"` with its own error text "API failure"; yet the
record `execute_plan` produces for the delegate step (position 3 of `planW`)
is the success record with the delegate's whole structure as payload, and its
`"status"` field is `"success"`, not `"error"` — refuting the claim that a
delegate-reported failure becomes an Error StepResult carrying the delegate's
error text. -/
theorem C1_delegate_error_counterexample :
    SubAgent.execute_task (Except.error "API failure") (Value.str "t")
      = Value.dict [("task", Value.str "t"), ("result", Value.none),
                    ("status", Value.str "error"),
                    ("error", Value.str "API failure")]
    ∧ (execute_plan envW planW 0).1.results.get? 3
        = some (successEntry 4 (Value.str "d")
            (SubAgent.execute_task (Except.error "API failure") (Value.str "t")))
    ∧ pyGet (successEntry 4 (Value.str "d")
          (SubAgent.execute_task (Except.error "API failure") (Value.str "t")))
          "status"
        = Value.str "success" :=
  ⟨rfl, rfl, rfl⟩

/-- C1, amended: for every Delegate (`sub_agent`) step, the record `execute`
produces is a Success StepResult whose payload is the delegate executor's
entire returned structure verbatim — even when that structure reports
`status = Error` with its own error text; the delegate failure is never
surfaced as an Error StepResult. -/
theorem C1_delegate_wrapped_as_success (env : ExecEnv) (p : Plan) (n i : Nat)
    (s : Dict)
    (hs : p.steps.get? i = some s)
    (ht : valueEqStr (pyGetD s "type" (Value.str "")) "sub_agent" = true) :
    (execute_plan env p n).1.results.get? i
      = some (successEntry (i + 1) (pyGetD s "action" (Value.str ""))
          (env.subExec (pyGetD s "task_description" (Value.str "")))) := by
  rw [execute_plan_results_get? env p n i, hs]
  simp [execStep_sub_agent env (i + 1) s ht]

/-- C1, witness: the amended statement at the delegate step of `planW`, whose
delegate behaviour reports an error. -/
theorem C1_delegate_wrapped_as_success_witness :
    (execute_plan envW planW 0).1.results.get? 3
      = some (successEntry 4 (Value.str "d")
          (envW.subExec (Value.str "t"))) :=
  C1_delegate_wrapped_as_success envW planW 0 3 stepSubW rfl rfl

/-- C2: the report contains exactly one record per input step; the record at
position `i` is precisely the dispatch outcome of input step `i` (so order is
preserved and no step is skipped); and every record carries the dense 1-based
index `i + 1` under `"step"`. -/
theorem C2_results_dense_and_indexed (env : ExecEnv) (p : Plan) (n : Nat) :
    (execute_plan env p n).1.results.length = p.steps.length
    ∧ (∀ i, (execute_plan env p n).1.results.get? i
          = (p.steps.get? i).map (fun s => (execStep env (i + 1) s).1))
    ∧ (∀ i r, (execute_plan env p n).1.results.get? i = some r →
          dget r "step" = some (Value.num (i + 1))) := by
  refine ⟨?_, fun i => execute_plan_results_get? env p n i, ?_⟩
  · show (execSteps env 1 p.steps).1.length = _
    exact execSteps_fst_length env 1 p.steps
  · intro i r h
    rw [execute_plan_results_get? env p n i] at h
    cases hs : p.steps.get? i with
    | none => rw [hs] at h; simp at h
    | some s =>
      rw [hs] at h
      simp only [Option.map_some', Option.some.injEq] at h
      rw [← h]
      exact execStep_step_field env (i + 1) s

/-- C2, witness: the first record of the concrete plan's report carries index
1. -/
theorem C2_results_dense_and_indexed_witness :
    dget (execStep envW 1 stepDirectW).1 "step" = some (Value.num 1) :=
  (C2_results_dense_and_indexed envW planW 0).2.2 0
    (execStep envW 1 stepDirectW).1 rfl

/-- C3: the report's `success` flag is exactly the conjunction of
`status == "success"` over all result records, and a zero-step plan yields an
empty result list with `success = true`. -/
theorem C3_success_is_conjunction (env : ExecEnv) (p : Plan) (n : Nat) :
    (execute_plan env p n).1.success
        = (execute_plan env p n).1.results.all
            (fun r => valueEqStr (pyGet r "status") "success")
    ∧ (p.steps = [] →
        (execute_plan env p n).1.results = []
        ∧ (execute_plan env p n).1.success = true) := by
  refine ⟨rfl, fun h => ?_⟩
  constructor <;> simp [execute_plan, h, execSteps]

/-- C3, witness: the zero-step plan's report. -/
theorem C3_success_is_conjunction_witness :
    (execute_plan envW planEmptyW 0).1.results = []
    ∧ (execute_plan envW planEmptyW 0).1.success = true :=
  (C3_success_is_conjunction envW planEmptyW 0).2 rfl

/-- C4: `execute` is total over plans with mapping steps (it is a Lean
function — it never raises); every step yields a record (nothing aborts the
sequence); and a fault raised by a recognized dispatch — here the connector's
call operation raising — is caught at the per-step boundary and becomes an
Error record carrying the fault's message. -/
theorem C4_faults_contained (env : ExecEnv) (p : Plan) (n : Nat) :
    (execute_plan env p n).1.results.length = p.steps.length
    ∧ ∀ i s conn e,
        p.steps.get? i = some s →
        valueEqStr (pyGetD s "type" (Value.str "")) "mcp_tool" = true →
        findConnector env (pyGet s "mcp_server") = some conn →
        conn (pyGetD s "action" (Value.str ""))
            (pyGetD s "parameters" (Value.dict [])) = Except.error e →
        (execute_plan env p n).1.results.get? i
          = some (errorEntry (i + 1) (pyGetD s "action" (Value.str "")) e) := by
  constructor
  · show (execSteps env 1 p.steps).1.length = _
    exact execSteps_fst_length env 1 p.steps
  · intro i s conn e hs ht hc he
    rw [execute_plan_results_get? env p n i, hs]
    simp [execStep_mcp_raise env (i + 1) s conn e ht hc he]

/-- C4, witness: in the concrete plan, the connector call that raises "boom"
at position 2 becomes an Error record, while all seven steps still produce
records. -/
theorem C4_faults_contained_witness :
    (execute_plan envW planW 0).1.results.length = planW.steps.length
    ∧ (execute_plan envW planW 0).1.results.get? 2
        = some (errorEntry 3 (Value.str "a3") "boom") :=
  ⟨(C4_faults_contained envW planW 0).1,
   (C4_faults_contained envW planW 0).2 2 stepToolFailW connBoom "boom"
     rfl rfl rfl rfl⟩

/-- C5: a `mcp_tool` step whose `mcp_server` is not a key of the connector
mapping yields an Error record whose message names the connector and says it
is not connected (and `execute`, being a total function, does not raise). -/
theorem C5_connector_not_found (env : ExecEnv) (p : Plan) (n : Nat) :
    ∀ i s name,
      p.steps.get? i = some s →
      valueEqStr (pyGetD s "type" (Value.str "")) "mcp_tool" = true →
      pyGet s "mcp_server" = Value.str name →
      env.connectors.find? (fun c => c.1 == name) = Option.none →
      (execute_plan env p n).1.results.get? i
        = some (errorEntry (i + 1) (pyGetD s "action" (Value.str ""))
            ("MCP server \x27" ++ name ++ "\x27 not connected")) := by
  intro i s name hs ht hm hn
  rw [execute_plan_results_get? env p n i, hs]
  simp [execStep_mcp_missing env (i + 1) s name ht hm hn]

/-- C5, witness: the unconnected connector "x" at position 1 of the concrete
plan. -/
theorem C5_connector_not_found_witness :
    (execute_plan envW planW 0).1.results.get? 1
      = some (errorEntry 2 (Value.str "a2")
          ("MCP server \x27" ++ "x" ++ "\x27 not connected")) :=
  C5_connector_not_found envW planW 0 1 stepToolMissingW "x" rfl rfl rfl rfl

/-- C6: a step whose type value equals none of the three recognized strings
yields an Error record whose message names the unrecognized value — such a
step always fails. -/
theorem C6_unknown_kind_fails (env : ExecEnv) (p : Plan) (n : Nat) :
    ∀ i s,
      p.steps.get? i = some s →
      valueEqStr (pyGetD s "type" (Value.str "")) "mcp_tool" = false →
      valueEqStr (pyGetD s "type" (Value.str "")) "sub_agent" = false →
      valueEqStr (pyGetD s "type" (Value.str "")) "direct" = false →
      (execute_plan env p n).1.results.get? i
        = some (errorEntry (i + 1) (pyGetD s "action" (Value.str ""))
            ("Unknown action type: "
               ++ pyStr (pyGetD s "type" (Value.str "")))) := by
  intro i s hs h1 h2 h3
  rw [execute_plan_results_get? env p n i, hs]
  simp [execStep_unknown env (i + 1) s h1 h2 h3]

/-- C6, witness: the step with type "bogus" at position 4 of the concrete
plan. -/
theorem C6_unknown_kind_fails_witness :
    (execute_plan envW planW 0).1.results.get? 4
      = some (errorEntry 5 (Value.str "u")
          ("Unknown action type: " ++ "bogus")) :=
  C6_unknown_kind_fails envW planW 0 4 stepUnknownW rfl rfl rfl rfl

/-- C7: a `direct` step always yields a Success record whose payload is the
synthesized "Direct action: ..." string referencing the step's action, and a
mapping lacking the action key contributes the empty string rather than an
error. -/
theorem C7_direct_succeeds (env : ExecEnv) (p : Plan) (n : Nat) :
    ∀ i s,
      p.steps.get? i = some s →
      valueEqStr (pyGetD s "type" (Value.str "")) "direct" = true →
      ((execute_plan env p n).1.results.get? i
         = some (successEntry (i + 1) (pyGetD s "action" (Value.str ""))
             (Value.str ("Direct action: "
                ++ pyStr (pyGetD s "action" (Value.str ""))))))
      ∧ (dget s "action" = Option.none →
          pyGetD s "action" (Value.str "") = Value.str "") := by
  intro i s hs ht
  constructor
  · rw [execute_plan_results_get? env p n i, hs]
    simp [execStep_direct env (i + 1) s ht]
  · intro h
    simp [pyGetD, h]

/-- C7, witness: the direct step without an action key at position 6 of the
concrete plan succeeds with the empty action name. -/
theorem C7_direct_succeeds_witness :
    ((execute_plan envW planW 0).1.results.get? 6
       = some (successEntry 7 (Value.str "")
           (Value.str ("Direct action: " ++ ""))))
    ∧ pyGetD stepDirectNoActW "action" (Value.str "") = Value.str "" :=
  ⟨(C7_direct_succeeds envW planW 0 6 stepDirectNoActW rfl rfl).1,
   (C7_direct_succeeds envW planW 0 6 stepDirectNoActW rfl rfl).2 rfl⟩

/-- A server whose tool-listing fetch always succeeds with an empty tool
list. -/
def srvEmptyToolsW : Nat → FetchOutcome :=
  fun _ => FetchOutcome.resp
    (Value.dict [("result", Value.dict [("tools", Value.list [])])])

/-- A server whose tool-listing fetch always succeeds with one tool. -/
def srvOneToolW : Nat → FetchOutcome :=
  fun _ => FetchOutcome.resp
    (Value.dict [("result",
      Value.dict [("tools",
        Value.list [Value.dict [("name", Value.str "tool1")]])])])

/-- A server whose tool-listing fetch always raises. -/
def srvRaiseW : Nat → FetchOutcome := fun _ => FetchOutcome.raise "fetch failed"

/-- A freshly constructed client: empty cache, no fetches yet. -/
def clientInitW : MCPClientState := ⟨Value.list [], 0⟩

/-- C8, counterexample.  Against a server that successfully returns an empty
tool list, the first `list_tools` call fetches successfully (fetch count 1)
and returns the fetched list; the second call performs another fetch (fetch
count 2) — refuting the claim that after the first successful fetch the cached
list is returned on subsequent calls without re-fetching.  (The empty list is
falsy, so `if self.tools_cache:` does not take the cached path.) -/
theorem C8_empty_fetch_recached_counterexample :
    MCPClient.list_tools srvEmptyToolsW clientInitW
      = (Value.list [], ⟨Value.list [], 1⟩)
    ∧ (MCPClient.list_tools srvEmptyToolsW
         (MCPClient.list_tools srvEmptyToolsW clientInitW).2).2.fetches = 2 :=
  ⟨rfl, rfl⟩

/-- C8, amended: after a call that leaves the cache truthy (which is exactly
what a successful fetch of a non-empty tool list does), every subsequent call
returns the cached list and leaves the state unchanged — in particular it does
not fetch again; a successful fetch of an empty list is not treated as cached.
And when the fetch raises, `list_tools` returns the empty list (with the cache
unchanged) rather than propagating the failure. -/
theorem C8_cache_and_failure (srv : Nat → FetchOutcome) (st : MCPClientState) :
    (pyTruthy (MCPClient.list_tools srv st).2.tools_cache = true →
       MCPClient.list_tools srv (MCPClient.list_tools srv st).2
         = ((MCPClient.list_tools srv st).2.tools_cache,
            (MCPClient.list_tools srv st).2))
    ∧ (∀ msg, pyTruthy st.tools_cache = false →
        srv st.fetches = FetchOutcome.raise msg →
        MCPClient.list_tools srv st
          = (Value.list [], ⟨st.tools_cache, st.fetches + 1⟩)) := by
  constructor
  · intro h
    exact list_tools_cached srv (MCPClient.list_tools srv st).2 h
  · intro msg h hr
    simp [MCPClient.list_tools, h, hr]

/-- C8, witness: a successful fetch of one tool is served from the cache on
the second call with no state change, and a raising fetch yields the empty
list. -/
theorem C8_cache_and_failure_witness :
    (MCPClient.list_tools srvOneToolW (MCPClient.list_tools srvOneToolW clientInitW).2
       = ((MCPClient.list_tools srvOneToolW clientInitW).2.tools_cache,
          (MCPClient.list_tools srvOneToolW clientInitW).2))
    ∧ MCPClient.list_tools srvRaiseW clientInitW
        = (Value.list [], ⟨clientInitW.tools_cache, clientInitW.fetches + 1⟩) :=
  ⟨(C8_cache_and_failure srvOneToolW clientInitW).1 rfl,
   (C8_cache_and_failure srvRaiseW clientInitW).2 "fetch failed" rfl rfl⟩

/-- C9: with fixed deterministic collaborator behaviour, the report is a pure
function of the plan — invoking `execute_plan` a second time (from the agent
state the first call left behind) yields an identical report, and indeed the
report does not depend on the agent's accumulated delegate-instance state at
all (instance identity is the one thing abstracted by the count). -/
theorem C9_execute_deterministic (env : ExecEnv) (p : Plan) (n : Nat) :
    (execute_plan env p ((execute_plan env p n).2)).1
        = (execute_plan env p n).1
    ∧ ∀ m, (execute_plan env p m).1 = (execute_plan env p n).1 :=
  ⟨rfl, fun _ => rfl⟩

/-- C10: a step mapping lacking the type key is dispatched with the empty
string as its kind, producing the unknown-action-type Error record with the
empty kind value (its message is exactly "Unknown action type: "); the step is
neither skipped (the record exists at its position) nor does `execute`, a
total function, raise. -/
theorem C10_missing_kind_is_empty_unknown (env : ExecEnv) (p : Plan) (n : Nat) :
    ∀ i s,
      p.steps.get? i = some s →
      dget s "type" = Option.none →
      ((execute_plan env p n).1.results.get? i
         = some (errorEntry (i + 1) (pyGetD s "action" (Value.str ""))
             ("Unknown action type: " ++ pyStr (Value.str ""))))
      ∧ ("Unknown action type: " ++ pyStr (Value.str ""))
          = "Unknown action type: " := by
  intro i s hs ht
  have h0 : pyGetD s "type" (Value.str "") = Value.str "" := by
    simp [pyGetD, ht]
  constructor
  · rw [execute_plan_results_get? env p n i, hs]
    have hu := execStep_unknown env (i + 1) s
      (by rw [h0]; decide) (by rw [h0]; decide) (by rw [h0]; decide)
    rw [h0] at hu
    simp [hu]
  · decide

/-- C10, witness: the step without a type key at position 5 of the concrete
plan. -/
theorem C10_missing_kind_is_empty_unknown_witness :
    (execute_plan envW planW 0).1.results.get? 5
      = some (errorEntry 6 (Value.str "n")
          ("Unknown action type: " ++ pyStr (Value.str ""))) :=
  (C10_missing_kind_is_empty_unknown envW planW 0 5 stepNoTypeW rfl rfl).1
